import Mathlib

/-!
Verification of the `trace` repository's Python sources against its
natural-language specification.

The repository's files under verification:
  * `examples/grpc_client.py` — the example gRPC client (`process_logs`,
    `get_job_status`, `list_files`, `convert_to_csv`, `main`);
  * `examples/grpc_filter_test.py` — the filter-test driver that imports
    `create_filter_options`, `process_logs` and `convert_to_csv` from
    `grpc_client`;
  * `src/python/visualize_parquet.py` — the Parquet visualizer.

The server-side job pipeline, the protobuf-generated `log_processor_pb2`
module and the object store are not part of these sources; where a claim
depends on them, the corresponding definition is modelled from the spec and
carries a doc comment starting `Modelled from the spec:`.

Pure functions of the Python sources are embedded as Lean functions;
side effects that the claims are about (files saved, warnings printed,
`sys.exit`, uncaught exceptions) are made explicit in the return types.
-/

/-! ## Module-level facts of `examples/grpc_client.py` and
`examples/grpc_filter_test.py`

The names below transcribe the module structure of the two example files:
which top-level functions `grpc_client.py` defines, which parameters its
request-building functions accept, which fields they set on the requests
they build, and which names the filter-test driver imports from
`grpc_client` and passes to `process_logs` / `convert_to_csv`. -/

/-- Top-level functions defined by `examples/grpc_client.py` (the whole
module: lines 17, 95, 132, 155, 233). -/
def grpcClientModuleDefs : List String :=
  ["process_logs", "get_job_status", "list_files", "convert_to_csv", "main"]

/-- Parameters of `grpc_client.process_logs` (source lines 17–25), in
source order. -/
def processLogsParams : List String :=
  ["stub", "source_bucket", "source_path", "target_bucket", "target_path",
   "log_type", "chunk_size"]

/-- Fields set on the `ProcessLogsRequest` built by
`grpc_client.process_logs` (source lines 28–35). -/
def processLogsRequestFields : List String :=
  ["source_bucket", "source_path", "target_bucket", "target_path",
   "log_type", "chunk_size"]

/-- Parameters of `grpc_client.convert_to_csv` (source lines 155–162), in
source order. -/
def convertToCsvParams : List String :=
  ["stub", "source_bucket", "source_parquet_path", "target_bucket",
   "target_csv_path", "csv_prefix"]

/-- Names `examples/grpc_filter_test.py` imports from the `grpc_client`
module (source line 12: `from grpc_client import create_filter_options,
process_logs, convert_to_csv`). -/
def filterTestImportsFromGrpcClient : List String :=
  ["create_filter_options", "process_logs", "convert_to_csv"]

/-- Keyword arguments `grpc_filter_test.example_time_filter` passes to
`process_logs` (source lines 31–39). -/
def filterTestProcessLogsKwargs : List String :=
  ["source_bucket", "source_path", "target_bucket", "target_path",
   "log_type", "filter_options"]

/-- Keyword arguments `grpc_filter_test.example_csv_with_filter` passes to
`convert_to_csv` (source lines 143–151). -/
def filterTestConvertToCsvKwargs : List String :=
  ["source_bucket", "source_parquet_path", "target_bucket",
   "target_csv_path", "csv_prefix", "filter_options"]

/-! ## Stage-name maps of the client (`grpc_client.py`) -/

/-- The `stage_names` dict of `process_logs` (source lines 56–64); the same
dict appears in `get_job_status` (lines 103–111). -/
def processStageNames : List (Nat × String) :=
  [(0, "UNKNOWN"), (1, "DOWNLOADING"), (2, "PARSING"), (3, "CONVERTING"),
   (4, "UPLOADING"), (5, "COMPLETED"), (6, "FAILED")]

/-- The `stage_names` dict of `convert_to_csv` (source lines 195–202). -/
def csvStageNames : List (Nat × String) :=
  [(0, "UNKNOWN"), (1, "DOWNLOADING"), (2, "CONVERTING"), (3, "UPLOADING"),
   (4, "COMPLETED"), (5, "FAILED")]

/-- Python's `dict.get(key, default)` on an association list. -/
def dictGet (d : List (Nat × String)) (k : Nat) (dflt : String) : String :=
  match d.find? (fun kv => kv.1 == k) with
  | some kv => kv.2
  | none => dflt

/-- `stage_names.get(response.stage, "UNKNOWN")` in `process_logs` and
`get_job_status`. -/
def processStageName (s : Nat) : String := dictGet processStageNames s "UNKNOWN"

/-- `stage_names.get(response.stage, "UNKNOWN")` in `convert_to_csv`. -/
def csvStageName (s : Nat) : String := dictGet csvStageNames s "UNKNOWN"

/-- Modelled from the spec: the stage numbering for log processing,
`UNKNOWN(0) → DOWNLOADING(1) → PARSING(2) → CONVERTING(3) → UPLOADING(4) →
COMPLETED(5) | FAILED(6)` (spec §4.1; the protobuf enum itself is not among
the repository's source files). -/
def specLogStageNumbering : List (Nat × String) :=
  [(0, "UNKNOWN"), (1, "DOWNLOADING"), (2, "PARSING"), (3, "CONVERTING"),
   (4, "UPLOADING"), (5, "COMPLETED"), (6, "FAILED")]

/-- Modelled from the spec: the stage numbering for CSV conversion,
`UNKNOWN(0) → DOWNLOADING(1) → CONVERTING(2) → UPLOADING(3) →
COMPLETED(4) | FAILED(5)` (spec §4.1). -/
def specCsvStageNumbering : List (Nat × String) :=
  [(0, "UNKNOWN"), (1, "DOWNLOADING"), (2, "CONVERTING"), (3, "UPLOADING"),
   (4, "COMPLETED"), (5, "FAILED")]

/-! ## The client's event-consumption loop

`process_logs` iterates over the streamed responses and `break`s exactly
when `response.stage == 5` (COMPLETED) or `== 6` (FAILED); `convert_to_csv`
does the same with `4` and `5` (source lines 79–89 and 217–227).
`clientConsume` returns the list of events the loop body runs on, in
order. -/

/-- `response.stage == 5 or response.stage == 6` for log processing. -/
def procTerminal (s : Nat) : Bool := s == 5 || s == 6

/-- `response.stage == 4 or response.stage == 5` for CSV conversion. -/
def csvTerminal (s : Nat) : Bool := s == 4 || s == 5

/-- The events the client's `for response in responses` loop consumes: every
event is processed, and the loop breaks right after the first event whose
stage satisfies `isTerm`. -/
def clientConsume (isTerm : Nat → Bool) : List Nat → List Nat
  | [] => []
  | s :: rest => if isTerm s then [s] else s :: clientConsume isTerm rest

/-- Modelled from the spec: the stage sequence a job's pipeline emits is a
non-decreasing walk ending in exactly one terminal stage, which ends the
stream (spec §4.1, §8). -/
def ValidStream (isTerm : Nat → Bool) (seq : List Nat) : Prop :=
  List.Chain' (fun a b => a ≤ b) seq ∧
  ∃ pre t, seq = pre ++ [t] ∧ isTerm t = true ∧ ∀ x ∈ pre, isTerm x = false

lemma clientConsume_of_no_terminal (isTerm : Nat → Bool) :
    ∀ l : List Nat, (∀ x ∈ l, isTerm x = false) → clientConsume isTerm l = l := by
  intro l
  induction l with
  | nil => intro _; rfl
  | cons s rest ih =>
    intro h
    have hs : isTerm s = false := h s (List.mem_cons_self s rest)
    have hrest := ih (fun x hx => h x (List.mem_cons_of_mem s hx))
    simp [clientConsume, hs, hrest]

lemma clientConsume_stops_at_first_terminal (isTerm : Nat → Bool) :
    ∀ (pre : List Nat) (s : Nat) (post : List Nat),
      (∀ x ∈ pre, isTerm x = false) → isTerm s = true →
      clientConsume isTerm (pre ++ s :: post) = pre ++ [s] := by
  intro pre
  induction pre with
  | nil => intro s post _ hs; simp [clientConsume, hs]
  | cons p rest ih =>
    intro s post h hs
    have hp : isTerm p = false := h p (List.mem_cons_self p rest)
    have := ih s post (fun x hx => h x (List.mem_cons_of_mem p hx)) hs
    simp [clientConsume, hp, this]

/-! ## Progress events and the FAILED branch of the client

The shapes below follow the spec's §6 event shapes; the protobuf-generated
`log_processor_pb2` module is not among the repository's source files, so
optional protobuf fields are modelled per the spec as `Option` (with
`HasField` as `Option.isSome`). -/

/-- Modelled from the spec: the `ProcessLogsProgress` event shape (spec §6);
`success` and `error` are the optional fields of the wire shape. -/
structure ProcessLogsProgress where
  job_id : String
  stage : Nat
  progress_percent : Nat
  message : String
  records_processed : Nat
  output_files : List String
  success : Option Bool
  error : Option String
  deriving DecidableEq

/-- Modelled from the spec: the `ConvertToCsvProgress` event shape (spec §6,
with `csv_files` as the produced-artifact list of the CSV job). -/
structure ConvertToCsvProgress where
  job_id : String
  stage : Nat
  progress_percent : Nat
  message : String
  records_processed : Nat
  csv_files : List String
  success : Option Bool
  error : Option String
  deriving DecidableEq

/-- `error_msg = response.error if response.HasField('error') else
"Unknown error"` in the FAILED branch of `process_logs` (source line 87). -/
def processFailedMsg (r : ProcessLogsProgress) : String :=
  match r.error with
  | some e => e
  | none => "Unknown error"

/-- The same fallback in the FAILED branch of `convert_to_csv` (source
line 225). -/
def csvFailedMsg (r : ConvertToCsvProgress) : String :=
  match r.error with
  | some e => e
  | none => "Unknown error"

/-- Modelled from the spec: a pipeline-stage failure of a log-processing job
is surfaced as a single terminal FAILED event (stage 6) carrying the error
message in the `error` field, with `success` false at the terminal stage
(spec §7, §6). -/
def procFailureEvent (jid msg : String) (pct recs : Nat) : ProcessLogsProgress :=
  { job_id := jid, stage := 6, progress_percent := pct, message := msg,
    records_processed := recs, output_files := [], success := some false,
    error := some msg }

/-- Modelled from the spec: a pipeline-stage failure of a CSV-conversion job
is surfaced as a single terminal FAILED event (stage 5) carrying the error
message (spec §7, §6). -/
def csvFailureEvent (jid msg : String) (pct recs : Nat) : ConvertToCsvProgress :=
  { job_id := jid, stage := 5, progress_percent := pct, message := msg,
    records_processed := recs, csv_files := [], success := some false,
    error := some msg }

/-! ## `get_job_status` display (grpc_client.py lines 95–129) -/

/-- Modelled from the spec: the `JobStatus` response shape (spec §6) —
same fields as the most recent progress event plus `is_completed`;
`success` is tri-state (unset while running, true/false at a terminal
stage), so it is an `Option Bool` here, the generated `log_processor_pb2`
module not being among the repository's source files. -/
structure JobStatusResponse where
  job_id : String
  stage : Nat
  progress_percent : Nat
  message : String
  records_processed : Nat
  is_completed : Bool
  success : Option Bool
  error : String
  deriving DecidableEq

/-- The Result line `get_job_status` prints (source lines 122–126): nothing
when `response.success is not None` is false, `"  Result: ✅ Success"` when
success is true, and `"  Result: ❌ Failed - " + response.error` when it is
false. -/
def statusResultLine (r : JobStatusResponse) : Option String :=
  match r.success with
  | none => none
  | some true => some "  Result: ✅ Success"
  | some false => some ("  Result: ❌ Failed - " ++ r.error)

/-! ## `convert_to_csv` request building (grpc_client.py lines 155–174) -/

/-- The `ConvertToCsvRequest` message shape (request fields per spec §6;
the optional `csv_prefix` field starts unset). -/
structure ConvertToCsvRequest where
  source_bucket : String
  source_parquet_path : String
  target_bucket : String
  target_csv_path : String
  csv_prefix : Option String
  deriving DecidableEq

/-- Python truthiness of the `csv_prefix` argument (`None` default): `if
csv_prefix:` is false for `None` and for the empty string. -/
def pyTruthyStr : Option String → Bool
  | none => false
  | some s => !s.isEmpty

/-- The request `convert_to_csv` builds (source lines 165–174): the four
required fields, then `request.csv_prefix = csv_prefix` only under
`if csv_prefix:`. -/
def buildConvertToCsvRequest (sb sp tb tp : String)
    ( pfxArg : Option String) : ConvertToCsvRequest :=
  let request : ConvertToCsvRequest :=
    { source_bucket := sb, source_parquet_path := sp, target_bucket := tb,
      target_csv_path := tp, csv_prefix := none }
  if pyTruthyStr pfxArg then { request with csv_prefix := pfxArg } else request

/-- Modelled from the spec: the CSV Writer prepends the optional filename
prefix (empty when absent) to each produced CSV file's base name
(spec §4.4, Scenario E). -/
def csvOutputNames ( pfxArg : Option String) (baseNames : List String) : List String :=
  baseNames.map (fun b => pfxArg.getD "" ++ b)

/-! ## `list_files` (grpc_client.py lines 132–152) -/

/-- The `ListFilesRequest` message shape; the source field named after the
bucket is `prefix`, written `pfx` here. -/
structure ListFilesRequest where
  bucket : String
  pfx : String
  deriving DecidableEq

/-- The request `list_files` builds when the caller omits the prefix: the
parameter default is the empty string (source line 132), as is the `main`
fallback `sys.argv[3] if len(sys.argv) > 3 else ""` (source line 310). -/
def listFilesRequestDefault (bucket : String) : ListFilesRequest :=
  { bucket := bucket, pfx := "" }

/-- What `list_files` reports for a returned file list (source lines
140–149): every path, a no-files notice iff the list is empty, and a total
equal to `len(response.files)`. -/
structure ListFilesOutput where
  shownFiles : List String
  noFilesNotice : Bool
  total : Nat
  deriving DecidableEq

/-- The display logic of `list_files` on `response.files`. -/
def listFilesDisplay (files : List String) : ListFilesOutput :=
  { shownFiles := files, noFilesNotice := files.isEmpty, total := files.length }

/-- Modelled from the spec: `ListFiles` is a thin read-through listing of
the object store filtered by prefix; the empty prefix means all objects
(spec §4.5, §6). -/
def listObjects (objects : List String) ( pfxArg : String) : List String :=
  objects.filter (fun o => List.isPrefixOf pfxArg.data o.data)

/-! ## `src/python/visualize_parquet.py`

The visualizer's effects are made explicit: each plotting helper returns the
list of chart files it saves together with an optional uncaught Python
error, and the helpers of one visualization run in sequence, stopping at the
first error. A Matplotlib axes object and a Python string are the two value
kinds that reach the `ax` parameters. -/

/-- A Python value in an `ax` argument position: a Matplotlib axes object
(`axs[i]`), or a string (a file path passed where axes are expected). -/
inductive PyVal where
  | axesObj : Nat → PyVal
  | strV : String → PyVal
  deriving DecidableEq

/-- An uncaught Python error of the visualizer. -/
inductive PyErr where
  | attributeError : String → String → PyErr
  | keyError : String → PyErr
  | indexError : PyErr
  deriving DecidableEq

/-- A loaded DataFrame: its column names and its row count. -/
structure DataFrame where
  cols : List String
  nrows : Nat
  deriving DecidableEq

/-- `os.path.join` as the sources use it (relative paths, no trailing
separators). -/
def pathJoin (a b : String) : String := a ++ "/" ++ b

/-- One helper invocation's effect: the chart files it saves, and the error
it raises, if any. -/
abbrev VizStep := List String × Option PyErr

/-- Runs helper invocations in order, accumulating saved files and stopping
at the first uncaught error (which in Python aborts the enclosing call). -/
def runSteps : List VizStep → VizStep
  | [] => ([], none)
  | (saved, some e) :: _ => (saved, some e)
  | (saved, none) :: rest =>
    let r := runSteps rest
    (saved ++ r.1, r.2)

/-- `plot_time_series(df, x_col, y_col, title, ylabel, ax, ...)` (source
lines 69–89): evaluates `ax.scatter` first — an `AttributeError` when `ax`
is a string — then accesses `df[x_col]` and `df[y_col]`; it draws on `ax`
and saves no file itself. -/
def plot_time_series (df : DataFrame) (x_col y_col title ylabel : String)
    (ax : PyVal) : VizStep :=
  match ax with
  | .strV _ => ([], some (.attributeError "str" "scatter"))
  | .axesObj _ =>
    if x_col ∈ df.cols then
      if y_col ∈ df.cols then ([], none)
      else ([], some (.keyError y_col))
    else ([], some (.keyError x_col))

/-- `plot_histogram(df, col, title, xlabel, ax, ...)` (source lines
91–110): `ax.hist(df[col], ...)`, saving no file itself. -/
def plot_histogram (df : DataFrame) (col title xlabel : String)
    (ax : PyVal) : VizStep :=
  match ax with
  | .strV _ => ([], some (.attributeError "str" "hist"))
  | .axesObj _ =>
    if col ∈ df.cols then ([], none) else ([], some (.keyError col))

/-- `plot_pie(df, col, title, ax)` (source lines 112–135): aggregates
`df[col].value_counts()` first, indexes `labels[0]` (an `IndexError` on an
empty frame), then calls `ax.pie`. -/
def plot_pie (df : DataFrame) (col title : String) (ax : PyVal) : VizStep :=
  if col ∈ df.cols then
    if df.nrows = 0 then ([], some .indexError)
    else
      match ax with
      | .strV _ => ([], some (.attributeError "str" "pie"))
      | .axesObj _ => ([], none)
  else ([], some (.keyError col))

/-- `plot_opcode_distribution(df, ax)` (source lines 137–155): returns
early when the `opcode` column is missing, otherwise hands `ax` to
`sns.barplot`, which fails on a string where axes are expected. -/
def plot_opcode_distribution (df : DataFrame) (ax : PyVal) : VizStep :=
  if "opcode" ∈ df.cols then
    match ax with
    | .strV _ => ([], some (.attributeError "str" "bar"))
    | .axesObj _ => ([], none)
  else ([], none)

/-- `plot_io_type_distribution(df, ax)` (source lines 157–174): as
`plot_opcode_distribution` with the `io_type` column. -/
def plot_io_type_distribution (df : DataFrame) (ax : PyVal) : VizStep :=
  if "io_type" ∈ df.cols then
    match ax with
    | .strV _ => ([], some (.attributeError "str" "bar"))
    | .axesObj _ => ([], none)
  else ([], none)

/-- `plot_by_operation_type(df, x_col, y_col, category_col, ..., output_path,
is_ufs)` (source lines 176–228): a module-level `plt` figure, saved to
`output_path`. -/
def plot_by_operation_type (df : DataFrame) (x_col y_col category_col : String)
    (output_path : String) : VizStep :=
  if category_col ∈ df.cols then
    if x_col ∈ df.cols then
      if y_col ∈ df.cols then ([output_path], none)
      else ([], some (.keyError y_col))
    else ([], some (.keyError x_col))
  else ([], some (.keyError category_col))

/-- `plot_heatmap(df, output_path, target_col)` (source lines 659–692):
bins `df['time']`, pivots over `process`, saves to `output_path`. -/
def plot_heatmap (df : DataFrame) (output_path target_col : String) : VizStep :=
  if "time" ∈ df.cols then
    if "process" ∈ df.cols then
      if target_col ∈ df.cols then ([output_path], none)
      else ([], some (.keyError target_col))
    else ([], some (.keyError "process"))
  else ([], some (.keyError "time"))

/-- `visualize_ufs_data(df, output_dir)` (source lines 471–563): the
default (non-combined) UFS path; every chart helper receives the output
file path in its `ax` parameter position, except `plot_heatmap`, whose
second parameter is the path. -/
def visualize_ufs_data (df : DataFrame) (output_dir : String) : VizStep :=
  runSteps [
    plot_time_series df "time" "lba" "LBA Distribution over Time" "LBA"
      (.strV (pathJoin output_dir "ufs_lba_time.png")),
    plot_time_series df "time" "qd" "Queue Depth Distribution over Time"
      "Queue Depth" (.strV (pathJoin output_dir "ufs_qd_time.png")),
    plot_time_series df "time" "dtoc" "Dispatch to Complete Latency over Time"
      "Latency (ms)" (.strV (pathJoin output_dir "ufs_dtoc_time.png")),
    plot_time_series df "time" "ctod" "Complete to Dispatch Latency over Time"
      "Latency (ms)" (.strV (pathJoin output_dir "ufs_ctod_time.png")),
    plot_time_series df "time" "ctoc" "Complete to Complete Latency over Time"
      "Latency (ms)" (.strV (pathJoin output_dir "ufs_ctoc_time.png")),
    plot_histogram df "dtoc" "Dispatch to Complete Latency Distribution"
      "Latency (ms)" (.strV (pathJoin output_dir "ufs_dtoc_hist.png")),
    plot_histogram df "ctod" "Complete to Dispatch Latency Distribution"
      "Latency (ms)" (.strV (pathJoin output_dir "ufs_ctod_hist.png")),
    plot_histogram df "ctoc" "Complete to Complete Latency Distribution"
      "Latency (ms)" (.strV (pathJoin output_dir "ufs_ctoc_hist.png")),
    plot_pie df "continuous" "UFS Continuity Distribution"
      (.strV (pathJoin output_dir "ufs_continuous_pie.png")),
    plot_opcode_distribution df (.strV (pathJoin output_dir "ufs_opcode_dist.png")),
    plot_heatmap df (pathJoin output_dir "ufs_process_time_dtoc_heatmap.png") "dtoc"]

/-- `visualize_block_data(df, output_dir)` (source lines 565–657): the
default (non-combined) Block path, same shape as the UFS one with `sector`
and `io_type`. -/
def visualize_block_data (df : DataFrame) (output_dir : String) : VizStep :=
  runSteps [
    plot_time_series df "time" "sector" "Sector Distribution over Time" "Sector"
      (.strV (pathJoin output_dir "block_sector_time.png")),
    plot_time_series df "time" "qd" "Queue Depth Distribution over Time"
      "Queue Depth" (.strV (pathJoin output_dir "block_qd_time.png")),
    plot_time_series df "time" "dtoc" "Dispatch to Complete Latency over Time"
      "Latency (ms)" (.strV (pathJoin output_dir "block_dtoc_time.png")),
    plot_time_series df "time" "ctod" "Complete to Dispatch Latency over Time"
      "Latency (ms)" (.strV (pathJoin output_dir "block_ctod_time.png")),
    plot_time_series df "time" "ctoc" "Complete to Complete Latency over Time"
      "Latency (ms)" (.strV (pathJoin output_dir "block_ctoc_time.png")),
    plot_histogram df "dtoc" "Dispatch to Complete Latency Distribution"
      "Latency (ms)" (.strV (pathJoin output_dir "block_dtoc_hist.png")),
    plot_histogram df "ctod" "Complete to Dispatch Latency Distribution"
      "Latency (ms)" (.strV (pathJoin output_dir "block_ctod_hist.png")),
    plot_histogram df "ctoc" "Complete to Complete Latency Distribution"
      "Latency (ms)" (.strV (pathJoin output_dir "block_ctoc_hist.png")),
    plot_pie df "continuous" "Block I/O Continuity Distribution"
      (.strV (pathJoin output_dir "block_continuous_pie.png")),
    plot_io_type_distribution df (.strV (pathJoin output_dir "block_io_type_dist.png")),
    plot_heatmap df (pathJoin output_dir "block_process_time_dtoc_heatmap.png") "dtoc"]

/-- The summary-statistics subplot of the combined paths (source lines
339–360 / 431–452): `df['dtoc'].describe()` etc. on a real axes object;
saves nothing itself. -/
def statsTableStep (df : DataFrame) : VizStep :=
  if "dtoc" ∈ df.cols then
    if "ctod" ∈ df.cols then
      if "ctoc" ∈ df.cols then ([], none) else ([], some (.keyError "ctoc"))
    else ([], some (.keyError "ctod"))
  else ([], some (.keyError "dtoc"))

/-- The per-process subplot of the combined paths (source lines 362–369 /
454–461): `df.groupby('process')['dtoc'].mean()` on a real axes object. -/
def processBarStep (df : DataFrame) : VizStep :=
  if "process" ∈ df.cols then
    if "dtoc" ∈ df.cols then ([], none) else ([], some (.keyError "dtoc"))
  else ([], some (.keyError "process"))

/-- `visualize_ufs_data_combined(df, output_path)` (source lines 287–377):
all charts drawn on real subplot axes `axs[0..11]`, then one
`plt.savefig(output_path)`. -/
def visualize_ufs_data_combined (df : DataFrame) (output_path : String) : VizStep :=
  runSteps [
    plot_time_series df "time" "lba" "LBA Distribution over Time" "LBA" (.axesObj 0),
    plot_time_series df "time" "qd" "Queue Depth Distribution over Time"
      "Queue Depth" (.axesObj 1),
    plot_time_series df "time" "dtoc" "Dispatch to Complete Latency over Time"
      "Latency (ms)" (.axesObj 2),
    plot_time_series df "time" "ctod" "Complete to Dispatch Latency over Time"
      "Latency (ms)" (.axesObj 3),
    plot_time_series df "time" "ctoc" "Complete to Complete Latency over Time"
      "Latency (ms)" (.axesObj 4),
    plot_histogram df "dtoc" "Dispatch to Complete Latency Distribution"
      "Latency (ms)" (.axesObj 5),
    plot_histogram df "ctod" "Complete to Dispatch Latency Distribution"
      "Latency (ms)" (.axesObj 6),
    plot_histogram df "ctoc" "Complete to Complete Latency Distribution"
      "Latency (ms)" (.axesObj 7),
    plot_pie df "continuous" "UFS Continuity Distribution" (.axesObj 8),
    plot_opcode_distribution df (.axesObj 9),
    statsTableStep df,
    processBarStep df,
    ([output_path], none)]

/-- `visualize_block_data_combined(df, output_path)` (source lines
379–469). -/
def visualize_block_data_combined (df : DataFrame) (output_path : String) : VizStep :=
  runSteps [
    plot_time_series df "time" "sector" "Sector Distribution over Time"
      "Sector" (.axesObj 0),
    plot_time_series df "time" "qd" "Queue Depth Distribution over Time"
      "Queue Depth" (.axesObj 1),
    plot_time_series df "time" "dtoc" "Dispatch to Complete Latency over Time"
      "Latency (ms)" (.axesObj 2),
    plot_time_series df "time" "ctod" "Complete to Dispatch Latency over Time"
      "Latency (ms)" (.axesObj 3),
    plot_time_series df "time" "ctoc" "Complete to Complete Latency over Time"
      "Latency (ms)" (.axesObj 4),
    plot_histogram df "dtoc" "Dispatch to Complete Latency Distribution"
      "Latency (ms)" (.axesObj 5),
    plot_histogram df "ctod" "Complete to Dispatch Latency Distribution"
      "Latency (ms)" (.axesObj 6),
    plot_histogram df "ctoc" "Complete to Complete Latency Distribution"
      "Latency (ms)" (.axesObj 7),
    plot_pie df "continuous" "Block I/O Continuity Distribution" (.axesObj 8),
    plot_io_type_distribution df (.axesObj 9),
    statsTableStep df,
    processBarStep df,
    ([output_path], none)]

/-- `visualize_issue_send_based(df, output_dir, is_ufs)` (source lines
230–285): returns with only a warning when the category column is missing,
otherwise four `plot_by_operation_type` charts, each saved to its own
file. -/
def visualize_issue_send_based (df : DataFrame) (output_dir : String)
    ( is_ufs : Bool) : VizStep :=
  let category_col := if is_ufs then "opcode" else "io_type"
  let fam := if is_ufs then "ufs" else "block"
  if category_col ∈ df.cols then
    runSteps [
      plot_by_operation_type df "time" "dtoc" category_col
        (pathJoin output_dir (fam ++ "_dtoc_by_" ++ category_col ++ ".png")),
      plot_by_operation_type df "time" "ctod" category_col
        (pathJoin output_dir (fam ++ "_ctod_by_" ++ category_col ++ ".png")),
      plot_by_operation_type df "time" "ctoc" category_col
        (pathJoin output_dir (fam ++ "_ctoc_by_" ++ category_col ++ ".png")),
      plot_by_operation_type df "time" "qd" category_col
        (pathJoin output_dir (fam ++ "_qd_by_" ++ category_col ++ ".png"))]
  else ([], none)

/-! ## `load_data` and `main` (visualize_parquet.py lines 21–52, 694–752) -/

/-- The state of a path in the filesystem, as `load_data` can encounter it:
absent, present but unreadable as Parquet, or readable as a DataFrame. -/
inductive FileState where
  | absent
  | unreadable
  | readable : DataFrame → FileState
  deriving DecidableEq

/-- `load_data(file_path)` (source lines 21–52): `sys.exit(1)` when the file
does not exist, `sys.exit(1)` when reading it raises, otherwise the loaded
DataFrame. `Except.error c` is `sys.exit(c)`. -/
def load_data (fs : String → FileState) (file_path : String) : Except Nat DataFrame :=
  match fs file_path with
  | .absent => .error 1
  | .unreadable => .error 1
  | .readable df => .ok df

/-- The visualization mode `main` dispatches on: `--issue-send`, or
`--combined`, or the default per-chart-file mode. -/
inductive VizMode where
  | issueSend
  | combined
  | separate
  deriving DecidableEq

/-- The observable outcome of a `main` run: warnings printed, whether each
family's DataFrame was loaded (and handed to its visualization), chart
files saved, an uncaught error if a visualization raised, and the code of a
`sys.exit` call if one happened. -/
structure MainOutcome where
  warnings : List String
  ufsLoaded : Bool
  blockLoaded : Bool
  chartsSaved : List String
  uncaught : Option PyErr
  exitCode : Option Nat
  deriving DecidableEq

/-- The UFS-family candidate input `main` derives (source line 713). -/
def ufsFileOf (parquet_file : String) : String := parquet_file ++ "_ufs.parquet"

/-- The Block-family candidate input `main` derives (source line 733). -/
def blockFileOf (parquet_file : String) : String := parquet_file ++ "_block.parquet"

/-- The visualization `main` runs on the UFS DataFrame, by mode (source
lines 722–728). -/
def vizUfs (mode : VizMode) (df : DataFrame) (output_dir : String) : VizStep :=
  match mode with
  | .issueSend => visualize_issue_send_based df (pathJoin output_dir "ufs_issue_send") true
  | .combined => visualize_ufs_data_combined df (pathJoin output_dir "ufs_combined.png")
  | .separate => visualize_ufs_data df (pathJoin output_dir "ufs")

/-- The visualization `main` runs on the Block DataFrame, by mode (source
lines 742–748). -/
def vizBlock (mode : VizMode) (df : DataFrame) (output_dir : String) : VizStep :=
  match mode with
  | .issueSend => visualize_issue_send_based df (pathJoin output_dir "block_issue_send") false
  | .combined => visualize_block_data_combined df (pathJoin output_dir "block_combined.png")
  | .separate => visualize_block_data df (pathJoin output_dir "block")

/-- The Block-family half of `main` (source lines 732–750), entered only
when the UFS half neither exited nor raised: warns if the Block file is
missing, otherwise loads it (possibly exiting via `load_data`) and runs the
mode's visualization. -/
def blockPhase (fs : String → FileState) (mode : VizMode)
    (block_file output_dir : String) (acc : MainOutcome) : MainOutcome :=
  if fs block_file = FileState.absent then
    { acc with warnings :=
        acc.warnings ++ ["Warning: Block file not found - " ++ block_file] }
  else
    match load_data fs block_file with
    | .error c => { acc with exitCode := some c }
    | .ok df =>
      let r := vizBlock mode df output_dir
      { acc with blockLoaded := true,
                 chartsSaved := acc.chartsSaved ++ r.1, uncaught := r.2 }

/-- `main` (source lines 694–752): derives the two family files from the
positional prefix argument, then handles the UFS family (warning when the
file is missing, `load_data` then the mode's visualization otherwise) and,
if the process is still alive, the Block family the same way. `output_dir`
stands for the timestamped directory `main` creates. -/
def mainRun (fs : String → FileState) (mode : VizMode)
    (parquet_file output_dir : String) : MainOutcome :=
  let ufs_file := ufsFileOf parquet_file
  let block_file := blockFileOf parquet_file
  let init : MainOutcome :=
    { warnings := [], ufsLoaded := false, blockLoaded := false,
      chartsSaved := [], uncaught := none, exitCode := none }
  if fs ufs_file = FileState.absent then
    blockPhase fs mode block_file output_dir
      { init with warnings := ["Warning: UFS file not found - " ++ ufs_file] }
  else
    match load_data fs ufs_file with
    | .error c => { init with exitCode := some c }
    | .ok df =>
      let r := vizUfs mode df output_dir
      let acc := { init with ufsLoaded := true, chartsSaved := r.1, uncaught := r.2 }
      match r.2 with
      | some _ => acc
      | none => blockPhase fs mode block_file output_dir acc

/-! ## Claim theorems -/

/-- C1: the filter-test driver imports `create_filter_options` from
`grpc_client` and calls `process_logs` / `convert_to_csv` with a
`filter_options` argument, but `grpc_client.py` defines no
`create_filter_options`, `process_logs` accepts no `filter_options`
parameter, and the `ProcessLogsRequest` it builds carries no
`filter_options` field — the client module contradicts its own test
driver, so the requests it builds cannot include caller-supplied filter
options. -/
theorem c1_filter_options_api_mismatch :
    "create_filter_options" ∈ filterTestImportsFromGrpcClient ∧
    "create_filter_options" ∉ grpcClientModuleDefs ∧
    "filter_options" ∈ filterTestProcessLogsKwargs ∧
    "filter_options" ∉ processLogsParams ∧
    "filter_options" ∉ processLogsRequestFields ∧
    "filter_options" ∈ filterTestConvertToCsvKwargs ∧
    "filter_options" ∉ convertToCsvParams := by
  refine ⟨?_, ?_, ?_, ?_, ?_, ?_, ?_⟩ <;> decide

lemma processStageName_of_ge (n : Nat) (hn : 7 ≤ n) :
    processStageName n = "UNKNOWN" := by
  have h0 : (0 == n) = false := by rw [beq_eq_false_iff_ne]; omega
  have h1 : (1 == n) = false := by rw [beq_eq_false_iff_ne]; omega
  have h2 : (2 == n) = false := by rw [beq_eq_false_iff_ne]; omega
  have h3 : (3 == n) = false := by rw [beq_eq_false_iff_ne]; omega
  have h4 : (4 == n) = false := by rw [beq_eq_false_iff_ne]; omega
  have h5 : (5 == n) = false := by rw [beq_eq_false_iff_ne]; omega
  have h6 : (6 == n) = false := by rw [beq_eq_false_iff_ne]; omega
  simp [processStageName, dictGet, processStageNames, List.find?,
    h0, h1, h2, h3, h4, h5, h6]

lemma csvStageName_of_ge (n : Nat) (hn : 6 ≤ n) :
    csvStageName n = "UNKNOWN" := by
  have h0 : (0 == n) = false := by rw [beq_eq_false_iff_ne]; omega
  have h1 : (1 == n) = false := by rw [beq_eq_false_iff_ne]; omega
  have h2 : (2 == n) = false := by rw [beq_eq_false_iff_ne]; omega
  have h3 : (3 == n) = false := by rw [beq_eq_false_iff_ne]; omega
  have h4 : (4 == n) = false := by rw [beq_eq_false_iff_ne]; omega
  have h5 : (5 == n) = false := by rw [beq_eq_false_iff_ne]; omega
  simp [csvStageName, dictGet, csvStageNames, List.find?,
    h0, h1, h2, h3, h4, h5]

/-- C2: the client's stage-name maps assign exactly the specified names to
the specified codes for each job kind — log processing UNKNOWN=0,
DOWNLOADING=1, PARSING=2, CONVERTING=3, UPLOADING=4, COMPLETED=5, FAILED=6;
CSV conversion UNKNOWN=0, DOWNLOADING=1, CONVERTING=2, UPLOADING=3,
COMPLETED=4, FAILED=5 — agreeing with the spec's numbering, and every
other code displays as UNKNOWN. -/
theorem c2_stage_numbering :
    processStageNames = specLogStageNumbering ∧
    csvStageNames = specCsvStageNumbering ∧
    processStageName 0 = "UNKNOWN" ∧ processStageName 1 = "DOWNLOADING" ∧
    processStageName 2 = "PARSING" ∧ processStageName 3 = "CONVERTING" ∧
    processStageName 4 = "UPLOADING" ∧ processStageName 5 = "COMPLETED" ∧
    processStageName 6 = "FAILED" ∧
    csvStageName 0 = "UNKNOWN" ∧ csvStageName 1 = "DOWNLOADING" ∧
    csvStageName 2 = "CONVERTING" ∧ csvStageName 3 = "UPLOADING" ∧
    csvStageName 4 = "COMPLETED" ∧ csvStageName 5 = "FAILED" ∧
    (∀ n : Nat, 7 ≤ n → processStageName n = "UNKNOWN") ∧
    (∀ n : Nat, 6 ≤ n → csvStageName n = "UNKNOWN") :=
  ⟨rfl, rfl, rfl, rfl, rfl, rfl, rfl, rfl, rfl, rfl, rfl, rfl, rfl, rfl, rfl,
   processStageName_of_ge, csvStageName_of_ge⟩

/-- C3: on a spec-valid event stream (a non-decreasing stage walk whose
single terminal event ends it) the client consumes every event and stops at
the terminal one; in general the loop stops exactly at the first event with
a terminal stage (5/6 for log processing, 4/5 for CSV) and never stops
earlier on a non-terminal stage. -/
theorem c3_client_stops_exactly_at_terminal :
    (∀ seq : List Nat, ValidStream procTerminal seq →
        clientConsume procTerminal seq = seq) ∧
    (∀ seq : List Nat, ValidStream csvTerminal seq →
        clientConsume csvTerminal seq = seq) ∧
    (∀ (pre : List Nat) (s : Nat) (post : List Nat),
        (∀ x ∈ pre, procTerminal x = false) → procTerminal s = true →
        clientConsume procTerminal (pre ++ s :: post) = pre ++ [s]) ∧
    (∀ (pre : List Nat) (s : Nat) (post : List Nat),
        (∀ x ∈ pre, csvTerminal x = false) → csvTerminal s = true →
        clientConsume csvTerminal (pre ++ s :: post) = pre ++ [s]) ∧
    (∀ seq : List Nat, (∀ x ∈ seq, procTerminal x = false) →
        clientConsume procTerminal seq = seq) ∧
    (∀ seq : List Nat, (∀ x ∈ seq, csvTerminal x = false) →
        clientConsume csvTerminal seq = seq) := by
  refine ⟨?_, ?_, ?_, ?_, ?_, ?_⟩
  · rintro seq ⟨-, pre, t, rfl, ht, hpre⟩
    exact clientConsume_stops_at_first_terminal procTerminal pre t [] hpre ht
  · rintro seq ⟨-, pre, t, rfl, ht, hpre⟩
    exact clientConsume_stops_at_first_terminal csvTerminal pre t [] hpre ht
  · exact clientConsume_stops_at_first_terminal procTerminal
  · exact clientConsume_stops_at_first_terminal csvTerminal
  · exact clientConsume_of_no_terminal procTerminal
  · exact clientConsume_of_no_terminal csvTerminal

/-- C4: a pipeline failure is surfaced as a single terminal FAILED event
(stage 6 for log processing, 5 for CSV) whose `error` field is set to the
error message, so the client's FAILED branch reads the field present and
returns the message itself — its "Unknown error" fallback is not
exercised. -/
theorem c4_failed_event_carries_error (jid msg : String) (pct recs : Nat) :
    (procFailureEvent jid msg pct recs).stage = 6 ∧
    procTerminal (procFailureEvent jid msg pct recs).stage = true ∧
    (procFailureEvent jid msg pct recs).error = some msg ∧
    ((procFailureEvent jid msg pct recs).error).isSome = true ∧
    processFailedMsg (procFailureEvent jid msg pct recs) = msg ∧
    (csvFailureEvent jid msg pct recs).stage = 5 ∧
    csvTerminal (csvFailureEvent jid msg pct recs).stage = true ∧
    (csvFailureEvent jid msg pct recs).error = some msg ∧
    ((csvFailureEvent jid msg pct recs).error).isSome = true ∧
    csvFailedMsg (csvFailureEvent jid msg pct recs) = msg :=
  ⟨rfl, rfl, rfl, rfl, rfl, rfl, rfl, rfl, rfl, rfl⟩

lemma successLine_ne_failedLine (e : String) :
    "  Result: ✅ Success" ≠ "  Result: ❌ Failed - " ++ e := by
  intro h
  have hl := congrArg String.length h
  rw [String.length_append] at hl
  have h1 : ("  Result: ✅ Success").length = 19 := rfl
  have h2 : ("  Result: ❌ Failed - ").length = 21 := rfl
  omega

/-- C5: `get_job_status` prints no Result line when `success` is unset
(still-running job), prints Success when it is true, and prints "Failed"
with the error text exactly when `success` is set to false. -/
theorem c5_status_success_tristate (r : JobStatusResponse) :
    (r.success = none → statusResultLine r = none) ∧
    (r.success = some true → statusResultLine r = some "  Result: ✅ Success") ∧
    (r.success = some false →
      statusResultLine r = some ("  Result: ❌ Failed - " ++ r.error)) ∧
    (statusResultLine r = some ("  Result: ❌ Failed - " ++ r.error) →
      r.success = some false) := by
  rcases hs : r.success with - | b
  · refine ⟨fun _ => by simp [statusResultLine, hs], fun hc => by simp [hs] at hc,
      fun hc => by simp [hs] at hc, fun hc => ?_⟩
    simp [statusResultLine, hs] at hc
  · cases b
    · exact ⟨fun hc => by simp [hs] at hc, fun hc => by simp [hs] at hc,
        fun _ => by simp [statusResultLine, hs], fun _ => rfl⟩
    · refine ⟨fun hc => by simp [hs] at hc, fun _ => by simp [statusResultLine, hs],
        fun hc => by simp [hs] at hc, fun hc => ?_⟩
      rw [statusResultLine, hs] at hc
      exact absurd (Option.some.inj hc) (successLine_ne_failedLine r.error)

/-- C6: a `ConvertToCsv` call with `csv_prefix="myprefix"` builds a request
whose `csv_prefix` field is `"myprefix"`, every CSV filename the writer
produces under that prefix begins with `"myprefix"`, and a call with no
`csv_prefix` leaves the field unset. -/
theorem c6_csv_prefix_request (sb sp tb tp : String) (baseNames : List String) :
    ConvertToCsvRequest.csv_prefix
        (buildConvertToCsvRequest sb sp tb tp (some "myprefix")) = some "myprefix" ∧
    (∀ f ∈ csvOutputNames (some "myprefix") baseNames,
        ∃ rest, f = "myprefix" ++ rest) ∧
    ConvertToCsvRequest.csv_prefix
        (buildConvertToCsvRequest sb sp tb tp none) = none := by
  refine ⟨rfl, ?_, rfl⟩
  intro f hf
  simp only [csvOutputNames, List.mem_map] at hf
  obtain ⟨b, -, rfl⟩ := hf
  exact ⟨b, rfl⟩

/-- C7: with the prefix omitted, `list_files` sends the empty-string prefix;
an empty prefix filters nothing out of the listing; and the client shows
every returned path, reports a total equal to the number of returned paths,
and prints the no-files notice exactly when the list is empty. -/
theorem c7_list_files_default (bucket : String) (objects files : List String) :
    (listFilesRequestDefault bucket).pfx = "" ∧
    listObjects objects "" = objects ∧
    (listFilesDisplay files).shownFiles = files ∧
    (listFilesDisplay files).total = files.length ∧
    ((listFilesDisplay files).noFilesNotice = true ↔ files = []) := by
  refine ⟨rfl, ?_, rfl, rfl, ?_⟩
  · simp [listObjects, List.isPrefixOf_iff_prefix]
  · simp [listFilesDisplay]

/-- C8: in `convert_to_csv`, a caller-supplied empty-string `csv_prefix`
builds the same request as passing no prefix at all — the `csv_prefix`
field stays unset in both cases, because the code tests the argument for
truthiness rather than for being None. -/
theorem c8_empty_prefix_like_none (sb sp tb tp : String) :
    buildConvertToCsvRequest sb sp tb tp (some "") =
      buildConvertToCsvRequest sb sp tb tp none ∧
    ConvertToCsvRequest.csv_prefix
        (buildConvertToCsvRequest sb sp tb tp (some "")) = none :=
  ⟨rfl, rfl⟩

/-- C9: for any non-empty DataFrame, the default-mode `visualize_ufs_data`
and `visualize_block_data` pass the output file path string in the axes
position of `plot_time_series`, so the very first chart call raises an
AttributeError (`str` has no `scatter`) and no per-metric chart file is
ever saved. -/
theorem c9_default_mode_raises (df : DataFrame) (output_dir : String)
    (hne : 0 < df.nrows) :
    visualize_ufs_data df output_dir =
      ([], some (PyErr.attributeError "str" "scatter")) ∧
    visualize_block_data df output_dir =
      ([], some (PyErr.attributeError "str" "scatter")) :=
  ⟨rfl, rfl⟩

/-- A concrete UFS-shaped DataFrame with four rows. -/
def sampleDf : DataFrame :=
  { cols := ["time", "lba", "qd", "dtoc", "ctod", "ctoc", "continuous",
             "opcode", "process"],
    nrows := 4 }

/-- C9 witness: at the concrete four-row DataFrame, the default-mode UFS
visualization saves nothing and raises the AttributeError. -/
theorem c9_default_mode_raises_witness :
    visualize_ufs_data sampleDf "plots" =
      ([], some (PyErr.attributeError "str" "scatter")) ∧
    visualize_block_data sampleDf "plots" =
      ([], some (PyErr.attributeError "str" "scatter")) :=
  c9_default_mode_raises sampleDf "plots" (by decide)

lemma blockPhase_exitCode (fs : String → FileState) (mode : VizMode)
    (bf outDir : String) (acc : MainOutcome) (hacc : acc.exitCode = none) :
    ∀ c, (blockPhase fs mode bf outDir acc).exitCode = some c →
      c = 1 ∧ fs bf = FileState.unreadable := by
  intro c hc
  cases hfb : fs bf with
  | absent => simp [blockPhase, hfb, hacc] at hc
  | unreadable =>
    simp only [blockPhase, hfb, load_data] at hc
    simp at hc
    exact ⟨hc.symm, rfl⟩
  | readable df => simp [blockPhase, hfb, load_data, hacc] at hc

/-- C10: `main` derives exactly the two candidate inputs by appending
`_ufs.parquet` and `_block.parquet` to the path-prefix argument and handles
each family independently: a missing family file yields only a warning and
the other family is still loaded and visualized, while a `sys.exit` happens
only with status 1 and only through `load_data`, that is, only when a
family file exists but cannot be read — and `load_data` itself exits with
status 1 exactly when its file is absent or unreadable. -/
theorem c10_main_two_families (fs : String → FileState) (mode : VizMode)
    (p outDir q : String) (df : DataFrame) :
    (ufsFileOf p = p ++ "_ufs.parquet" ∧ blockFileOf p = p ++ "_block.parquet") ∧
    (fs (ufsFileOf p) = FileState.absent → fs (blockFileOf p) = FileState.readable df →
      (mainRun fs mode p outDir).warnings =
          ["Warning: UFS file not found - " ++ ufsFileOf p] ∧
      (mainRun fs mode p outDir).blockLoaded = true ∧
      (mainRun fs mode p outDir).exitCode = none) ∧
    (fs (blockFileOf p) = FileState.absent → fs (ufsFileOf p) = FileState.readable df →
      (mainRun fs mode p outDir).ufsLoaded = true ∧
      (mainRun fs mode p outDir).exitCode = none ∧
      ((vizUfs mode df outDir).2 = none →
        (mainRun fs mode p outDir).warnings =
          ["Warning: Block file not found - " ++ blockFileOf p])) ∧
    (∀ c, (mainRun fs mode p outDir).exitCode = some c →
      c = 1 ∧ (fs (ufsFileOf p) = FileState.unreadable ∨
               fs (blockFileOf p) = FileState.unreadable)) ∧
    (load_data fs q = Except.error 1 ↔
      (fs q = FileState.absent ∨ fs q = FileState.unreadable)) := by
  refine ⟨⟨rfl, rfl⟩, ?_, ?_, ?_, ?_⟩
  · intro h1 h2
    simp [mainRun, blockPhase, load_data, h1, h2]
  · intro h2 h1
    rcases hr : (vizUfs mode df outDir).2 with - | e
    · constructor
      · simp [mainRun, blockPhase, load_data, h1, h2, hr]
      · constructor
        · simp [mainRun, blockPhase, load_data, h1, h2, hr]
        · intro _
          simp [mainRun, blockPhase, load_data, h1, h2, hr]
    · refine ⟨?_, ?_, fun hnone => Option.noConfusion hnone⟩
      · simp [mainRun, load_data, h1, hr]
      · simp [mainRun, load_data, h1, hr]
  · intro c hc
    cases h1 : fs (ufsFileOf p) with
    | absent =>
      simp only [mainRun] at hc
      rw [if_pos h1] at hc
      have := blockPhase_exitCode fs mode (blockFileOf p) outDir _ rfl c hc
      exact ⟨this.1, Or.inr this.2⟩
    | unreadable =>
      simp only [mainRun, h1, load_data] at hc
      simp at hc
      exact ⟨hc.symm, Or.inl rfl⟩
    | readable df' =>
      rcases hr : (vizUfs mode df' outDir).2 with - | e
      · simp only [mainRun, h1, load_data] at hc
        simp only [hr] at hc
        simp at hc
        have := blockPhase_exitCode fs mode (blockFileOf p) outDir _ rfl c hc
        exact ⟨this.1, Or.inr this.2⟩
      · simp [mainRun, h1, load_data, hr] at hc
  · constructor
    · intro h
      cases hq : fs q with
      | absent => exact Or.inl rfl
      | unreadable => exact Or.inr rfl
      | readable df' => simp [load_data, hq] at h
    · rintro (h | h) <;> simp [load_data, h]

/-- C3 witness: a concrete valid log-processing stream `[1,2,3,4,5]` and a
concrete valid CSV stream `[1,2,2,3,4]` are consumed whole, the terminal
event last. -/
theorem c3_client_stops_witness :
    ValidStream procTerminal [1, 2, 3, 4, 5] ∧
    clientConsume procTerminal [1, 2, 3, 4, 5] = [1, 2, 3, 4, 5] ∧
    clientConsume csvTerminal [1, 2, 2, 3, 4] = [1, 2, 2, 3, 4] := by
  have hv : ValidStream procTerminal [1, 2, 3, 4, 5] :=
    ⟨by simp [List.chain'_cons], [1, 2, 3, 4], 5, rfl, rfl, by decide⟩
  have hv2 : ValidStream csvTerminal [1, 2, 2, 3, 4] :=
    ⟨by simp [List.chain'_cons], [1, 2, 2, 3], 4, rfl, rfl, by decide⟩
  exact ⟨hv, c3_client_stops_exactly_at_terminal.1 _ hv,
    c3_client_stops_exactly_at_terminal.2.1 _ hv2⟩

/-- A still-running job's status response: `success` unset. -/
def runningStatus : JobStatusResponse :=
  { job_id := "job-1", stage := 2, progress_percent := 40, message := "Parsing",
    records_processed := 1000, is_completed := false, success := none, error := "" }

/-- A failed job's status response: `success` set to false, `error` set. -/
def failedStatus : JobStatusResponse :=
  { job_id := "job-2", stage := 6, progress_percent := 80, message := "Failed",
    records_processed := 2000, is_completed := true, success := some false,
    error := "SourceNotFound" }

/-- C5 witness: the running response gets no Result line; the failed one
gets the Failed line with its error text. -/
theorem c5_status_success_witness :
    statusResultLine runningStatus = none ∧
    statusResultLine failedStatus = some "  Result: ❌ Failed - SourceNotFound" := by
  refine ⟨(c5_status_success_tristate runningStatus).1 rfl, ?_⟩
  have h := (c5_status_success_tristate failedStatus).2.2.1 rfl
  simpa using h

/-- C6 witness: with base names `["part0.csv", "part1.csv"]` each produced
CSV name begins with `myprefix`, and the request carries the prefix. -/
theorem c6_csv_prefix_witness :
    ConvertToCsvRequest.csv_prefix
        (buildConvertToCsvRequest "b" "p" "tb" "tp" (some "myprefix")) =
      some "myprefix" ∧
    csvOutputNames (some "myprefix") ["part0.csv", "part1.csv"] =
      ["myprefixpart0.csv", "myprefixpart1.csv"] := by
  refine ⟨(c6_csv_prefix_request "b" "p" "tb" "tp" ["part0.csv", "part1.csv"]).1, ?_⟩
  decide

/-- A filesystem with only the Block family file, readable. -/
def c10fs : String → FileState := fun path =>
  if path = "trace_block.parquet" then FileState.readable sampleDf
  else FileState.absent

/-- C10 witness: with the UFS file missing and the Block file readable,
`main` warns about the UFS file, still loads the Block family, and does not
exit. -/
theorem c10_main_two_families_witness :
    (mainRun c10fs VizMode.separate "trace" "out").warnings =
        ["Warning: UFS file not found - " ++ ufsFileOf "trace"] ∧
    (mainRun c10fs VizMode.separate "trace" "out").blockLoaded = true ∧
    (mainRun c10fs VizMode.separate "trace" "out").exitCode = none :=
  (c10_main_two_families c10fs VizMode.separate "trace" "out" "q" sampleDf).2.1
    (by decide) (by decide)
